import Mathlib

/-!
Shallow embedding of the `UXOrchestrator` class of the Claude-UX-Consultant
repository (`src/orchestrator.js`): the analysis-aggregation pipeline, the
summary/scoring engine, and the tier dispatch of `analyzePage`.

Modelling conventions:
* JavaScript object fields that may be `undefined` are `Option` fields.
* JS string falsiness (`a || b`, where `""` and `undefined` are falsy) is
  modelled by `strOr`.
* A JS number that may be `NaN` is modelled as `Option Nat`/`Option Int`
  with `none` standing for `NaN` (`undefined * 20 = NaN`, and every
  arithmetic operation as well as `Math.max` propagates `NaN`).
* JS plain objects used as string-keyed maps (`metrics`, `scores`) are
  association lists; `Object.assign` is `objAssign` (keys of the source
  overwrite identically-named keys of the target).
* The effects of the browser environment (navigation, screenshots, the
  analyzer promises and their settlement) are supplied by an `Env` record;
  `Promise.allSettled` hands the merging loop the settlement list in
  registration (array) order, which is how the `forEach` in
  `runQuickAnalysis`/`runDeepAnalysis` receives it.
-/

namespace UX

/-- JS `a || b` on possibly-undefined strings: `undefined` and `""` are falsy. -/
def strOr (a b : Option String) : Option String :=
  match a with
  | some s => if s = "" then b else some s
  | none => b

/-- An issue object as produced by the analyzers: every field may be absent. -/
structure Issue where
  severity : Option String := none
  impact : Option String := none
  title : Option String := none
  description : Option String := none
  fix : Option String := none
  solution : Option String := none
  category : Option String := none
deriving Repr, DecidableEq

/-- A recommendation object; only the fields the summary inspects. -/
structure Recommendation where
  effort : Option String := none
  impact : Option String := none
deriving Repr, DecidableEq

/-- A string-keyed JS object holding numbers (`metrics` / `scores`). -/
abbrev Obj := List (String × Int)

/-- Whether the object has the given key. -/
def hasKey (o : Obj) (k : String) : Bool :=
  o.any (fun p => p.1 == k)

/-- Property lookup on the object. -/
def objGet : Obj → String → Option Int
  | [], _ => none
  | (k', v) :: rest, k => if k' == k then some v else objGet rest k

/-- `Object.assign(target, src)`: every key of `src` overwrites the
identically-named key of `target`; other keys of `target` survive. -/
def objAssign (t s : Obj) : Obj :=
  t.filter (fun p => !hasKey s p.1) ++ s

/-- The value one analyzer method resolves with: `{issues, recommendations,
metrics, scores}`, each possibly absent (the merge loops guard with
`|| []` / `|| {}`, so absent fields behave as the empty default). -/
structure Fragment where
  issues : List Issue := []
  recommendations : List Recommendation := []
  metrics : Obj := []
  scores : Obj := []
deriving Repr, DecidableEq

/-- One element of the array `Promise.allSettled` resolves with.
`fulfilled none` is a promise that fulfilled with a falsy value (the
`result.status === 'fulfilled' && result.value` guard skips it). -/
inductive Settled where
  | fulfilled (value : Option Fragment)
  | rejected (reason : String)
deriving Repr, DecidableEq

/-- A priority-action entry as built by `getPriorityActions`. -/
structure Action where
  title : Option String := none
  description : Option String := none
  action : Option String := none
  impact : Option String := none
deriving Repr, DecidableEq

/-- The `summary` block written by `calculateSummary`. `overallScore` is
`none` when the JS computation produces `NaN`. -/
structure Summary where
  totalIssues : Nat
  criticalIssues : Nat
  highIssues : Nat
  mediumIssues : Nat
  recommendations : Nat
  overallScore : Option Nat
  estimatedFixTime : Nat
  priorityActions : List Action
  quickWins : Nat
deriving Repr, DecidableEq

/-- The mutable `results` object of `analyzePage`. `summary = none` models
the initial empty object `{}` (every field access on it is `undefined`). -/
structure AnalysisResult where
  url : String := ""
  analysisType : String := ""
  issues : List Issue := []
  recommendations : List Recommendation := []
  screenshots : List String := []
  metrics : Obj := []
  scores : Obj := []
  summary : Option Summary := none
  error : Option String := none
deriving Repr, DecidableEq

/-- The object literal `analyzePage` creates before the `try`. -/
def initialResult (url analysisType : String) : AnalysisResult :=
  { url := url, analysisType := analysisType }

/-- One step of the `forEach` merge loop in `runQuickAnalysis`: fulfilled
truthy fragments contribute `issues`, `recommendations` and `metrics`
(`Object.assign`); everything else is skipped. Note: `scores` is NOT merged
here. -/
def mergeQuickOne (r : AnalysisResult) (s : Settled) : AnalysisResult :=
  match s with
  | .fulfilled (some v) =>
      { r with
        issues := r.issues ++ v.issues,
        recommendations := r.recommendations ++ v.recommendations,
        metrics := objAssign r.metrics v.metrics }
  | _ => r

/-- `runQuickAnalysis`: settle the quick batch, then merge in array order. -/
def runQuickAnalysis (r : AnalysisResult) (settled : List Settled) : AnalysisResult :=
  settled.foldl mergeQuickOne r

/-- One step of the `forEach` merge loop in `runDeepAnalysis`: like the quick
one but additionally `Object.assign`s `scores`. -/
def mergeDeepOne (r : AnalysisResult) (s : Settled) : AnalysisResult :=
  match s with
  | .fulfilled (some v) =>
      { r with
        issues := r.issues ++ v.issues,
        recommendations := r.recommendations ++ v.recommendations,
        metrics := objAssign r.metrics v.metrics,
        scores := objAssign r.scores v.scores }
  | _ => r

/-- `runDeepAnalysis`: first `runQuickAnalysis` on the quick batch, then the
deep batch merged with `mergeDeepOne`, both in array (registration) order. -/
def runDeepAnalysis (r : AnalysisResult) (quickSettled deepSettled : List Settled) :
    AnalysisResult :=
  deepSettled.foldl mergeDeepOne (runQuickAnalysis r quickSettled)

/-- Filter of the `criticalIssues` bucket in `calculateSummary`:
`i.severity === 'critical' || i.impact === 'high'`. -/
def isCriticalBucket (i : Issue) : Bool :=
  i.severity == some "critical" || i.impact == some "high"

/-- Filter of the `highIssues` bucket:
`i.severity === 'high' || i.impact === 'medium'`. -/
def isHighBucket (i : Issue) : Bool :=
  i.severity == some "high" || i.impact == some "medium"

/-- Filter of the `mediumIssues` bucket:
`i.severity === 'medium' || i.impact === 'low'`. -/
def isMediumBucket (i : Issue) : Bool :=
  i.severity == some "medium" || i.impact == some "low"

/-- `calculateOverallScore(results)` reads `results.summary?.criticalIssues`
etc. — the summary object as it is BEFORE `calculateSummary` assigns the new
one. If that summary is the initial `{}` the field reads are `undefined`,
the penalties are `NaN` and `Math.max(0, NaN)` is `NaN` (`none`). -/
def calculateOverallScore (r : AnalysisResult) : Option Nat :=
  match r.summary with
  | none => none
  | some s =>
      some (Int.toNat (max 0
        (100 - 20 * (s.criticalIssues : Int) - 10 * (s.highIssues : Int)
          - 5 * (s.mediumIssues : Int))))

/-- The `timeEstimates` table lookup `timeEstimates[severity] || 30` of
`estimateFixTime`. -/
def timeEstimate (sev : String) : Nat :=
  if sev = "critical" then 120
  else if sev = "high" then 60
  else if sev = "medium" then 30
  else if sev = "low" then 15
  else 30

/-- The key `issue.severity || issue.impact || 'medium'` of `estimateFixTime`. -/
def severityKey (i : Issue) : String :=
  (strOr i.severity (strOr i.impact (some "medium"))).getD "medium"

/-- `estimateFixTime(issues)`: `reduce` of the per-issue table cost. -/
def estimateFixTime (issues : List Issue) : Nat :=
  issues.foldl (fun total i => total + timeEstimate (severityKey i)) 0

/-- The `.map` body of `getPriorityActions`. -/
def renderAction (i : Issue) : Action :=
  { title := i.title
    description := i.description
    action := strOr i.fix i.solution
    impact := strOr i.impact i.severity }

/-- `getPriorityActions(issues)`: filter `severity === 'critical' ||
impact === 'high'`, `slice(0, 3)`, then render each issue. -/
def getPriorityActions (issues : List Issue) : List Action :=
  ((issues.filter (fun i =>
      i.severity == some "critical" || i.impact == some "high")).take 3).map
    renderAction

/-- The `quickWins` filter: `r.effort === 'low' || r.impact === 'quick'`. -/
def isQuickWin (rec : Recommendation) : Bool :=
  rec.effort == some "low" || rec.impact == some "quick"

/-- `calculateSummary(results)`: builds the new summary object and assigns it
to `results.summary`. In JS the property values of the object literal are
evaluated before the assignment happens, so `calculateOverallScore` sees the
OLD `results.summary`. -/
def calculateSummary (r : AnalysisResult) : AnalysisResult :=
  { r with
    summary := some
      { totalIssues := r.issues.length
        criticalIssues := (r.issues.filter isCriticalBucket).length
        highIssues := (r.issues.filter isHighBucket).length
        mediumIssues := (r.issues.filter isMediumBucket).length
        recommendations := r.recommendations.length
        overallScore := calculateOverallScore r
        estimatedFixTime := estimateFixTime r.issues
        priorityActions := getPriorityActions r.issues
        quickWins := (r.recommendations.filter isQuickWin).length } }

/-- The behaviour of the browser/analyzer environment during one
`analyzePage` call: whether the awaited effectful calls throw, and what the
analyzer promises settle to. `elementOutcome` abstracts the pair
`visual.elementAnalysis` / `accessibility.elementCheck` of
`runElementAnalysis` (an `error` models either await throwing, which happens
before anything is pushed into the results). -/
structure Env where
  gotoError : Option String := none
  screenshotError : Option String := none
  screenshotPath : String := "screenshot.png"
  quickSettled : List Settled := []
  deepSettled : List Settled := []
  elementOutcome : Except String (Fragment × Fragment) := .ok ({}, {})
  mobileGotoError : Option String := none
  mobileShotError : Option String := none
  mobileShotPath : String := "mobile.png"
  mobileAudit : Except String Fragment := .ok {}

/-- `runElementAnalysis`: both analyzer calls are awaited directly (no
`allSettled`); the result object is only mutated after both succeed. -/
def runElementAnalysis (env : Env) (r : AnalysisResult) :
    Except String AnalysisResult :=
  match env.elementOutcome with
  | .error e => .error e
  | .ok (el, acc) =>
      .ok { r with
        issues := r.issues ++ el.issues ++ acc.issues,
        recommendations := r.recommendations ++ el.recommendations ++ acc.recommendations }

/-- Outcome of `runFullAnalysis`: the state of the (mutated) results object
when the call returns or its error propagates, whether it threw, and whether
`mobilePage.close()` / `mobileContext.close()` were reached. -/
structure FullOutcome where
  result : AnalysisResult
  thrown : Option String
  mobilePageClosed : Bool
  mobileContextClosed : Bool
deriving Repr, DecidableEq

/-- `runFullAnalysis`: deep analysis, then the mobile phase — a fresh mobile
context and page, `goto`, screenshot, `fullMobileAudit`, and only then the
two `close()` calls. There is no `try`/`finally`: any throw in the mobile
phase propagates before the `close()` lines run. -/
def runFullAnalysis (env : Env) (r : AnalysisResult) : FullOutcome :=
  let r1 := runDeepAnalysis r env.quickSettled env.deepSettled
  match env.mobileGotoError with
  | some e =>
      { result := r1, thrown := some e
        mobilePageClosed := false, mobileContextClosed := false }
  | none =>
    match env.mobileShotError with
    | some e =>
        { result := r1, thrown := some e
          mobilePageClosed := false, mobileContextClosed := false }
    | none =>
      let r2 := { r1 with screenshots := r1.screenshots ++ [env.mobileShotPath] }
      match env.mobileAudit with
      | .error e =>
          { result := r2, thrown := some e
            mobilePageClosed := false, mobileContextClosed := false }
      | .ok frag =>
          { result := { r2 with
              issues := r2.issues ++ frag.issues,
              recommendations := r2.recommendations ++ frag.recommendations }
            thrown := none
            mobilePageClosed := true, mobileContextClosed := true }

/-- What one `analyzePage` call produces: the returned results object and
whether the `finally` block closed the page opened for the call. -/
structure PageOutcome where
  result : AnalysisResult
  pageClosed : Bool
deriving Repr, DecidableEq

/-- `analyzePage(url, analysisType)`: create the results object, `goto`,
screenshot, dispatch on `analysisType` (a `switch` with no `default`),
finalize with `calculateSummary`. Any throw is caught: the error message is
recorded on the (possibly partially mutated) results object, which is
returned; the `finally` block closes the page on every path. -/
def analyzePage (env : Env) (url analysisType : String) : PageOutcome :=
  let r0 := initialResult url analysisType
  match env.gotoError with
  | some e => { result := { r0 with error := some e }, pageClosed := true }
  | none =>
    match env.screenshotError with
    | some e => { result := { r0 with error := some e }, pageClosed := true }
    | none =>
      let r1 := { r0 with screenshots := [env.screenshotPath] }
      if analysisType = "quick" then
        { result := calculateSummary (runQuickAnalysis r1 env.quickSettled)
          pageClosed := true }
      else if analysisType = "deep" then
        { result := calculateSummary
            (runDeepAnalysis r1 env.quickSettled env.deepSettled)
          pageClosed := true }
      else if analysisType = "element" then
        match runElementAnalysis env r1 with
        | .ok r2 => { result := calculateSummary r2, pageClosed := true }
        | .error e => { result := { r1 with error := some e }, pageClosed := true }
      else if analysisType = "full" then
        let out := runFullAnalysis env r1
        match out.thrown with
        | none => { result := calculateSummary out.result, pageClosed := true }
        | some e =>
            { result := { out.result with error := some e }, pageClosed := true }
      else
        { result := calculateSummary r1, pageClosed := true }

/-! ### Spec-side definitions and concrete example inputs -/

/-- The spec's score formula `max(0, 100 − 20×critical − 10×high − 5×medium)`
as a function of three counts. -/
def scoreFormula (c h m : Nat) : Nat :=
  Int.toNat (max 0 (100 - 20 * (c : Int) - 10 * (h : Int) - 5 * (m : Int)))

/-- A summary with its `overallScore` blanked, to compare the score-free part
of two summaries. -/
def dropScore (s : Summary) : Summary :=
  { s with overallScore := none }

/-- Spec reading of `priorityActions`: walk the issues in insertion order and
render the first `n` whose severity is `critical` or whose impact is `high`. -/
def firstPriorityActions : List Issue → Nat → List Action
  | [], _ => []
  | _ :: _, 0 => []
  | i :: rest, n + 1 =>
      if i.severity == some "critical" || i.impact == some "high" then
        renderAction i :: firstPriorityActions rest n
      else
        firstPriorityActions rest (n + 1)

/-- Per-issue fix cost, read off the amended claim: the table key is the
issue's severity, falling back to its impact and then to `medium`; keys
outside the table cost the medium 30 minutes. -/
def specIssueCost (i : Issue) : Nat :=
  timeEstimate ((strOr i.severity i.impact).getD "medium")

/-- The spec's four-issue example: severities critical, high, medium, medium. -/
def fourIssues : List Issue :=
  [{ severity := some "critical" }, { severity := some "high" },
   { severity := some "medium" }, { severity := some "medium" }]

/-- A fresh result carrying the four-issue example, as `analyzePage` would
hold it right before its one `calculateSummary` call. -/
def exampleResult : AnalysisResult :=
  { initialResult "http://localhost:3000" "quick" with issues := fourIssues }

/-- An issue that is both `severity: critical` and `impact: medium`: it
matches the filters of the critical AND the high bucket. -/
def overlapIssue : Issue :=
  { severity := some "critical", impact := some "medium" }

/-- A result whose single issue lands in two severity buckets at once. -/
def overlapResult : AnalysisResult :=
  { initialResult "http://localhost:3000" "quick" with issues := [overlapIssue] }

/-- A fulfilled fragment with one issue, one recommendation and a metric. -/
def fragA : Fragment :=
  { issues := [{ severity := some "high", title := some "missing alt text" }]
    recommendations := [{ effort := some "low" }]
    metrics := [("domSize", 100)] }

/-- A second fulfilled fragment with one issue. -/
def fragB : Fragment :=
  { issues := [{ severity := some "low", title := some "slow load" }] }

/-- A quick batch in which the middle analyzer rejects. -/
def settledWithRejection : List Settled :=
  [.fulfilled (some fragA), .rejected "boom", .fulfilled (some fragB)]

/-- A fulfilled fragment that carries only a score. -/
def fragScore : Fragment :=
  { scores := [("visualConsistency", 90)] }

/-- An environment whose mobile `goto` times out during the full tier. -/
def mobileFailEnv : Env :=
  { mobileGotoError := some "Timeout 30000ms exceeded." }

/-! ### Helper lemmas -/

/-- The `finally` block of `analyzePage` closes the page on every path. -/
theorem pageClosed_always (env : Env) (url ty : String) :
    (analyzePage env url ty).pageClosed = true := by
  unfold analyzePage
  repeat first
    | rfl
    | split
    | dsimp only

/-- Lookup misses on an object without the key. -/
theorem objGet_eq_none_of_hasKey_false (o : Obj) (k : String) (h : hasKey o k = false) :
    objGet o k = none := by
  induction o with
  | nil => rfl
  | cons p rest ih =>
    obtain ⟨k', v⟩ := p
    simp only [hasKey, List.any_cons, Bool.or_eq_false_iff] at h
    simp only [objGet, h.1, if_false, Bool.false_eq_true]
    exact ih h.2

/-- `Object.assign` is last-write-wins per key: after the merge a key of the
source reads the source's value, any other key the target's. -/
theorem objGet_objAssign (t s : Obj) (k : String) :
    objGet (objAssign t s) k = if hasKey s k then objGet s k else objGet t k := by
  induction t with
  | nil =>
    by_cases h : hasKey s k = true
    · simp [objAssign, h]
    · have hf : hasKey s k = false := by simpa using h
      simp [objAssign, hf, objGet_eq_none_of_hasKey_false s k hf, objGet]
  | cons p rest ih =>
    obtain ⟨k', v⟩ := p
    by_cases hk' : hasKey s k' = true
    · have hstep : objAssign ((k', v) :: rest) s = objAssign rest s := by
        simp [objAssign, List.filter_cons, hk']
      rw [hstep, ih]
      by_cases hks : hasKey s k = true
      · simp [hks]
      · have hf : hasKey s k = false := by simpa using hks
        have hne : (k' == k) = false := by
          cases hkk : (k' == k) with
          | false => rfl
          | true =>
            have hkeq : k' = k := by simpa using hkk
            rw [hkeq] at hk'
            rw [hk'] at hf
            simp at hf
        simp [hf, objGet, hne]
    · have hkf : hasKey s k' = false := by simpa using hk'
      have hstep : objAssign ((k', v) :: rest) s = (k', v) :: objAssign rest s := by
        simp [objAssign, List.filter_cons, hkf]
      rw [hstep]
      by_cases hkk : (k' == k) = true
      · have hkeq : k' = k := by simpa using hkk
        subst hkeq
        simp [objGet, hkf]
      · have hne : (k' == k) = false := by simpa using hkk
        simp only [objGet, hne, Bool.false_eq_true, if_false, ih]

/-- Merging a fully fulfilled quick batch concatenates `issues` and
`recommendations`, folds `Object.assign` over `metrics` in array order, and
leaves `scores` untouched. -/
theorem runQuickAnalysis_map_fulfilled (frags : List Fragment) : ∀ r : AnalysisResult,
    runQuickAnalysis r (frags.map (fun f => Settled.fulfilled (some f))) =
      { r with
        issues := r.issues ++ (frags.map Fragment.issues).flatten,
        recommendations :=
          r.recommendations ++ (frags.map Fragment.recommendations).flatten,
        metrics := frags.foldl (fun m f => objAssign m f.metrics) r.metrics } := by
  induction frags with
  | nil => intro r; simp [runQuickAnalysis]
  | cons f fs ih =>
    intro r
    have step : runQuickAnalysis r ((f :: fs).map (fun f => Settled.fulfilled (some f))) =
        runQuickAnalysis (mergeQuickOne r (.fulfilled (some f)))
          (fs.map (fun f => Settled.fulfilled (some f))) := rfl
    rw [step, ih]
    simp [mergeQuickOne, List.append_assoc]

/-- Merging a fully fulfilled deep batch concatenates `issues` and
`recommendations` and folds `Object.assign` over both `metrics` and `scores`
in array order. -/
theorem foldl_mergeDeepOne_map_fulfilled (frags : List Fragment) : ∀ r : AnalysisResult,
    (frags.map (fun f => Settled.fulfilled (some f))).foldl mergeDeepOne r =
      { r with
        issues := r.issues ++ (frags.map Fragment.issues).flatten,
        recommendations :=
          r.recommendations ++ (frags.map Fragment.recommendations).flatten,
        metrics := frags.foldl (fun m f => objAssign m f.metrics) r.metrics,
        scores := frags.foldl (fun sc f => objAssign sc f.scores) r.scores } := by
  induction frags with
  | nil => intro r; simp
  | cons f fs ih =>
    intro r
    have step : ((f :: fs).map (fun f => Settled.fulfilled (some f))).foldl mergeDeepOne r =
        (fs.map (fun f => Settled.fulfilled (some f))).foldl mergeDeepOne
          (mergeDeepOne r (.fulfilled (some f))) := rfl
    rw [step, ih]
    simp [mergeDeepOne, List.append_assoc]

/-- Filter-then-take-`n`-then-render equals the one-pass walk that renders
the first `n` qualifying issues in insertion order. -/
theorem firstPriorityActions_eq (issues : List Issue) : ∀ n : Nat,
    ((issues.filter (fun i =>
        i.severity == some "critical" || i.impact == some "high")).take n).map
      renderAction = firstPriorityActions issues n := by
  induction issues with
  | nil => intro n; simp [firstPriorityActions]
  | cons i rest ih =>
    intro n
    by_cases hp : (i.severity == some "critical" || i.impact == some "high") = true
    · cases n with
      | zero => simp [firstPriorityActions]
      | succ n => simp [List.filter_cons, hp, firstPriorityActions, ih n]
    · have hpf : (i.severity == some "critical" || i.impact == some "high") = false := by
        simpa using hp
      cases n with
      | zero => simp [firstPriorityActions]
      | succ n => simp [List.filter_cons, hpf, firstPriorityActions, ih (n + 1)]

/-- The per-issue cost computed by `estimateFixTime` agrees with the
spec-side per-issue cost (severity, falling back to impact, then medium). -/
theorem timeEstimate_severityKey (i : Issue) :
    timeEstimate (severityKey i) = specIssueCost i := by
  rcases hs : i.severity with _ | s
  · rcases hi : i.impact with _ | t
    · simp [severityKey, specIssueCost, strOr, hs, hi]
    · by_cases ht : t = ""
      · subst ht
        simp [severityKey, specIssueCost, strOr, hs, hi]
        decide
      · simp [severityKey, specIssueCost, strOr, hs, hi, ht]
  · by_cases hse : s = ""
    · subst hse
      rcases hi : i.impact with _ | t
      · simp [severityKey, specIssueCost, strOr, hs, hi]
      · by_cases ht : t = ""
        · subst ht
          simp [severityKey, specIssueCost, strOr, hs, hi]
          decide
        · simp [severityKey, specIssueCost, strOr, hs, hi, ht]
    · simp [severityKey, specIssueCost, strOr, hs, hse]

/-- The `reduce` of `estimateFixTime` is the sum of the per-issue costs. -/
theorem estimateFixTime_foldl (l : List Issue) : ∀ a : Nat,
    l.foldl (fun total i => total + timeEstimate (severityKey i)) a =
      a + (l.map specIssueCost).sum := by
  induction l with
  | nil => intro a; simp
  | cons i rest ih =>
    intro a
    simp [List.foldl_cons, ih, timeEstimate_severityKey i, Nat.add_assoc]

/-- Claim C1, counterexample: in a quick batch where the middle analyzer
rejects, the merged result holds exactly the two fulfilled analyzers' issues
and contains NO synthetic issue of category `system` — the claimed synthetic
failure marker does not exist in the code. -/
theorem c1_rejected_fragment_counterexample :
    (runQuickAnalysis (initialResult "http://localhost:3000" "quick")
        settledWithRejection).issues = fragA.issues ++ fragB.issues
    ∧ ((runQuickAnalysis (initialResult "http://localhost:3000" "quick")
        settledWithRejection).issues.filter
          (fun i => i.category == some "system")).length = 0
    ∧ (runQuickAnalysis (initialResult "http://localhost:3000" "quick")
        settledWithRejection).issues.length = 2 := ⟨rfl, rfl, rfl⟩

/-- Claim C1, amended: rejected fragments ARE silently dropped, in every
tier: merging a batch containing a rejected settlement equals merging the
batch with that settlement removed, for the quick merge loop and for both
batches of the deep merge; no synthetic issue is added, so the issue count
reflects only the fulfilled analyzers. -/
theorem c1_amended_rejected_silently_dropped (r : AnalysisResult)
    (pre post qs ds : List Settled) (e : String) :
    runQuickAnalysis r (pre ++ .rejected e :: post) = runQuickAnalysis r (pre ++ post)
    ∧ runDeepAnalysis r qs (pre ++ .rejected e :: post) =
        runDeepAnalysis r qs (pre ++ post)
    ∧ runDeepAnalysis r (pre ++ .rejected e :: post) ds =
        runDeepAnalysis r (pre ++ post) ds := by
  refine ⟨?_, ?_, ?_⟩ <;>
    simp [runQuickAnalysis, runDeepAnalysis, List.foldl_append, List.foldl_cons,
      mergeQuickOne, mergeDeepOne]

/-- Claim C2, counterexample: on the spec's four-issue example the first
`calculateSummary` call produces `overallScore = NaN` (`none`), because
`calculateOverallScore` reads the counts of the summary object that existed
BEFORE the call — the initial `{}`. Even re-finalizing (so that the stored
counts 1/1/2 are used) yields 60, not the claimed 50. -/
theorem c2_first_finalize_score_is_nan :
    (calculateSummary exampleResult).summary =
      some { totalIssues := 4, criticalIssues := 1, highIssues := 1, mediumIssues := 2,
             recommendations := 0, overallScore := none, estimatedFixTime := 240,
             priorityActions := [{ impact := some "critical" }], quickWins := 0 }
    ∧ (calculateSummary (calculateSummary exampleResult)).summary.map
        Summary.overallScore = some (some 60) := ⟨rfl, rfl⟩

/-- Claim C2, amended: `overallScore` is `max(0, 100 − 20c − 10h − 5m)` of
the counts stored in the PREVIOUS summary object, and `NaN` when that is the
initial `{}` (as on every first finalize); whenever it is a number it is an
integer at most 100. -/
theorem c2_amended_overallScore_from_previous_summary (r : AnalysisResult) :
    (calculateSummary r).summary.map Summary.overallScore =
      some (r.summary.map (fun s =>
        scoreFormula s.criticalIssues s.highIssues s.mediumIssues))
    ∧ ∀ c h m : Nat, scoreFormula c h m ≤ 100 := by
  constructor
  · cases h : r.summary <;>
      simp [calculateSummary, calculateOverallScore, h, scoreFormula]
  · intro c h m
    unfold scoreFormula
    omega

/-- Claim C3, counterexample: `calculateSummary` is not idempotent — on the
four-issue example the first run stores `overallScore = NaN` and the second
run stores `60`, because the score is computed from the previously stored
summary state, not from the issue list alone. -/
theorem c3_not_idempotent_counterexample :
    (calculateSummary exampleResult).summary ≠
      (calculateSummary (calculateSummary exampleResult)).summary
    ∧ (calculateSummary exampleResult).summary.map Summary.overallScore = some none
    ∧ (calculateSummary (calculateSummary exampleResult)).summary.map
        Summary.overallScore = some (some 60) := by
  refine ⟨?_, rfl, rfl⟩
  decide

/-- Claim C3, amended: every summary field except `overallScore` is
recomputed from the issues/recommendations lists alone, so those fields agree
between one and two runs; `overallScore` lags one run behind, and the summary
is identical from the second run onwards. -/
theorem c3_amended_summary_stabilizes (r : AnalysisResult) :
    (calculateSummary r).summary.map dropScore =
      (calculateSummary (calculateSummary r)).summary.map dropScore
    ∧ (calculateSummary (calculateSummary r)).summary =
        (calculateSummary (calculateSummary (calculateSummary r))).summary :=
  ⟨rfl, rfl⟩

/-- Claim C4, counterexample: an issue with `severity: critical` and
`impact: medium` is counted in BOTH the critical and the high bucket, so the
bucket counts (sum 2, with no low bucket at all) do not sum to the total
issue count 1 — the buckets are not a partition chosen by severity with an
impact fallback. -/
theorem c4_buckets_overlap_counterexample :
    (calculateSummary overlapResult).summary.map
        (fun s => (s.totalIssues, s.criticalIssues, s.highIssues, s.mediumIssues)) =
      some (1, 1, 1, 0)
    ∧ (calculateSummary overlapResult).summary.map
        (fun s => s.criticalIssues + s.highIssues + s.mediumIssues) = some 2
    ∧ (calculateSummary overlapResult).summary.map Summary.totalIssues = some 1
    ∧ (calculateSummary overlapResult).summary.map
          (fun s => s.criticalIssues + s.highIssues + s.mediumIssues) ≠
        (calculateSummary overlapResult).summary.map Summary.totalIssues := by
  refine ⟨rfl, rfl, rfl, ?_⟩
  decide

/-- Claim C4, amended: the summary's three bucket counts are overlapping
filters over the issues list — `criticalIssues` counts issues with severity
`critical` OR impact `high`, `highIssues` severity `high` OR impact `medium`,
`mediumIssues` severity `medium` OR impact `low`; there is no low bucket and
the counts need not sum to `totalIssues`. -/
theorem c4_amended_buckets_are_overlapping_filters (r : AnalysisResult) :
    ∃ s, (calculateSummary r).summary = some s
      ∧ s.totalIssues = r.issues.length
      ∧ s.criticalIssues = r.issues.countP isCriticalBucket
      ∧ s.highIssues = r.issues.countP isHighBucket
      ∧ s.mediumIssues = r.issues.countP isMediumBucket := by
  refine ⟨_, rfl, rfl, ?_, ?_, ?_⟩ <;> simp [List.countP_eq_length_filter]

/-- Claim C5: if navigation throws, `analyzePage` does not propagate: it
records the error message into `AnalysisResult.error`, returns the partial
result with `issues = []`, and the page is closed on this failure path as on
every other path. -/
theorem c5_navigation_failure (env : Env) (url ty e : String) :
    (analyzePage { env with gotoError := some e } url ty).result.error = some e
    ∧ (analyzePage { env with gotoError := some e } url ty).result.issues = []
    ∧ (analyzePage { env with gotoError := some e } url ty).pageClosed = true
    ∧ (analyzePage env url ty).pageClosed = true :=
  ⟨rfl, rfl, rfl, pageClosed_always env url ty⟩

/-- Claim C6, counterexample: a fulfilled quick-batch fragment carrying a
`scores` key is not merged last-write-wins — `runQuickAnalysis` drops the
fragment's scores entirely. -/
theorem c6_quick_batch_drops_scores_counterexample :
    (runQuickAnalysis (initialResult "http://localhost:3000" "quick")
        [.fulfilled (some fragScore)]).scores = []
    ∧ objGet fragScore.scores "visualConsistency" = some 90
    ∧ objGet (runQuickAnalysis (initialResult "http://localhost:3000" "quick")
        [.fulfilled (some fragScore)]).scores "visualConsistency" = none :=
  ⟨rfl, rfl, rfl⟩

/-- Claim C6, amended: fulfilled fragments are merged in registration
(array) order; `issues` and `recommendations` are concatenated preserving
every entry, `metrics` is merged by `Object.assign` in both batches, but
`scores` is so merged only in the deep batch — the quick merge loop discards
fragment scores; `Object.assign` itself is last-write-wins per key. -/
theorem c6_amended_merge_semantics (r : AnalysisResult) (frags : List Fragment)
    (t s : Obj) (k : String) :
    runQuickAnalysis r (frags.map (fun f => Settled.fulfilled (some f))) =
      { r with
        issues := r.issues ++ (frags.map Fragment.issues).flatten,
        recommendations :=
          r.recommendations ++ (frags.map Fragment.recommendations).flatten,
        metrics := frags.foldl (fun m f => objAssign m f.metrics) r.metrics }
    ∧ (frags.map (fun f => Settled.fulfilled (some f))).foldl mergeDeepOne r =
      { r with
        issues := r.issues ++ (frags.map Fragment.issues).flatten,
        recommendations :=
          r.recommendations ++ (frags.map Fragment.recommendations).flatten,
        metrics := frags.foldl (fun m f => objAssign m f.metrics) r.metrics,
        scores := frags.foldl (fun sc f => objAssign sc f.scores) r.scores }
    ∧ objGet (objAssign t s) k = if hasKey s k then objGet s k else objGet t k :=
  ⟨runQuickAnalysis_map_fulfilled frags r, foldl_mergeDeepOne_map_fulfilled frags r,
    objGet_objAssign t s k⟩

/-- Claim C7, counterexample: when the mobile page's `goto` throws inside
`runFullAnalysis`, the error propagates with neither the mobile page nor the
mobile context closed — the second browsing context leaks past the call. -/
theorem c7_mobile_context_leak_counterexample :
    (runFullAnalysis mobileFailEnv (initialResult "http://localhost:3000" "full")).thrown =
      some "Timeout 30000ms exceeded."
    ∧ (runFullAnalysis mobileFailEnv
        (initialResult "http://localhost:3000" "full")).mobilePageClosed = false
    ∧ (runFullAnalysis mobileFailEnv
        (initialResult "http://localhost:3000" "full")).mobileContextClosed = false :=
  ⟨rfl, rfl, rfl⟩

/-- Claim C7, amended: the mobile page and mobile context are closed
exactly on the non-throwing path of `runFullAnalysis`; if mobile navigation,
the mobile screenshot or the mobile audit throws, both are left open. -/
theorem c7_amended_mobile_closed_iff_no_throw (env : Env) (r : AnalysisResult) :
    (runFullAnalysis env r).mobilePageClosed = (runFullAnalysis env r).thrown.isNone
    ∧ (runFullAnalysis env r).mobileContextClosed =
        (runFullAnalysis env r).thrown.isNone := by
  unfold runFullAnalysis
  constructor <;> (repeat first | rfl | split | dsimp only)

/-- Claim C8: `priorityActions` has at most 3 entries and equals the
one-pass rendering of the first (in insertion order, no re-sorting) issues
whose severity is `critical` or whose impact is `high`, each rendered as
`{title, description, action, impact}` from that issue. -/
theorem c8_priority_actions (issues : List Issue) :
    (getPriorityActions issues).length ≤ 3
    ∧ getPriorityActions issues = firstPriorityActions issues 3 := by
  constructor
  · simp only [getPriorityActions, List.length_map, List.length_take]
    omega
  · exact firstPriorityActions_eq issues 3

/-- Claim C9, counterexample: an issue with no severity but `impact: high`
contributes 60 minutes, not the claimed medium default of 30 — the code falls
back to the impact field before defaulting. -/
theorem c9_impact_fallback_counterexample :
    estimateFixTime [{ impact := some "high" }] = 60
    ∧ estimateFixTime [{ impact := some "high" }] ≠ 30 := by
  refine ⟨rfl, ?_⟩
  decide

/-- Claim C9, amended: `estimatedFixTime` is the sum over all issues of
the table cost `{critical: 120, high: 60, medium: 30, low: 15}` keyed by
severity, falling back to impact and then to `medium`; keys outside the
table cost 30; zero issues yield 0. -/
theorem c9_amended_fix_time (issues : List Issue) :
    estimateFixTime issues = (issues.map specIssueCost).sum
    ∧ estimateFixTime [] = 0 := by
  refine ⟨?_, rfl⟩
  simpa [estimateFixTime] using estimateFixTime_foldl issues 0

/-- Claim C10: for an `analysisType` outside
quick/deep/element/full, and with navigation and screenshot succeeding, the
dispatch `switch` (which has no `default`) runs no analyzer: `analyzePage`
returns without error, with empty issues and recommendations and a summary
computed over those empty lists, and the page is closed. -/
theorem c10_unknown_tier (env : Env) (url ty : String)
    (h1 : ty ≠ "quick") (h2 : ty ≠ "deep") (h3 : ty ≠ "element") (h4 : ty ≠ "full") :
    (analyzePage { env with gotoError := none, screenshotError := none }
        url ty).result.error = none
    ∧ (analyzePage { env with gotoError := none, screenshotError := none }
        url ty).result.issues = []
    ∧ (analyzePage { env with gotoError := none, screenshotError := none }
        url ty).result.recommendations = []
    ∧ (analyzePage { env with gotoError := none, screenshotError := none }
        url ty).result.summary =
      some { totalIssues := 0, criticalIssues := 0, highIssues := 0, mediumIssues := 0,
             recommendations := 0, overallScore := none, estimatedFixTime := 0,
             priorityActions := [], quickWins := 0 }
    ∧ (analyzePage { env with gotoError := none, screenshotError := none }
        url ty).pageClosed = true := by
  have hdis : analyzePage { env with gotoError := none, screenshotError := none } url ty =
      { result := calculateSummary
          { initialResult url ty with screenshots := [env.screenshotPath] },
        pageClosed := true } := by
    simp [analyzePage, h1, h2, h3, h4]
  rw [hdis]
  exact ⟨rfl, rfl, rfl, rfl, rfl⟩

/-- Claim C10, witness: the unknown tier `"unknown"` on the default
environment. -/
theorem c10_witness :
    (analyzePage { ({} : Env) with gotoError := none, screenshotError := none }
        "http://localhost:3000" "unknown").result.error = none
    ∧ (analyzePage { ({} : Env) with gotoError := none, screenshotError := none }
        "http://localhost:3000" "unknown").result.issues = []
    ∧ (analyzePage { ({} : Env) with gotoError := none, screenshotError := none }
        "http://localhost:3000" "unknown").result.recommendations = []
    ∧ (analyzePage { ({} : Env) with gotoError := none, screenshotError := none }
        "http://localhost:3000" "unknown").result.summary =
      some { totalIssues := 0, criticalIssues := 0, highIssues := 0, mediumIssues := 0,
             recommendations := 0, overallScore := none, estimatedFixTime := 0,
             priorityActions := [], quickWins := 0 }
    ∧ (analyzePage { ({} : Env) with gotoError := none, screenshotError := none }
        "http://localhost:3000" "unknown").pageClosed = true :=
  c10_unknown_tier {} "http://localhost:3000" "unknown"
    (by decide) (by decide) (by decide) (by decide)

end UX
